import Mathlib

/-!
Verification of the simple remote-attestation protocol (Verifier / Prover
over a serial line) against its C sources: `microvisor.c`, `prover.c`,
`verifier.c`.

Bytes are modelled as `Nat` (each wire byte is `< 256` where that matters),
buffers as `List Nat`, and the 32-bit counters as `Nat` reduced modulo
`2 ^ 32` exactly where the C `uint32_t` arithmetic wraps.  OpenSSL's
`HMAC(EVP_sha256(), ...)` is external to the repository; the spec treats it
as an opaque deterministic keyed digest, so the development is parameterised
by a function `hmac : List Nat → List Nat → List Nat` (key, message ↦ tag);
a concrete executable stand-in `hmac0` is supplied for evaluating theorems
at concrete inputs.
-/

/-- `#define KEY_SIZE 32` (microvisor.c, prover.c, verifier.c). -/
def KEY_SIZE : Nat := 32

/-- `#define OUTPUT_SIZE 32`: HMAC-SHA256 output size in bytes. -/
def OUTPUT_SIZE : Nat := 32

/-- `#define NONCE_SIZE 32`. -/
def NONCE_SIZE : Nat := 32

/-- `#define COUNTER_SIZE 4`: the 32-bit counter occupies 4 wire bytes. -/
def COUNTER_SIZE : Nat := 4

/-- The type of the abstract keyed digest: `hmac key message` is the
HMAC-SHA256 tag, a 32-byte buffer.  Stands for OpenSSL's
`HMAC(EVP_sha256(), key, KEY_SIZE, msg, len, out, &len)`. -/
abbrev Hmac : Type := List Nat → List Nat → List Nat

/-- The two secret keys held by the microvisor:
`volatile uint8_t Kauth[KEY_SIZE]` and `volatile uint8_t Kattest[KEY_SIZE]`
(microvisor.c). -/
structure Keys where
  Kauth : List Nat
  Kattest : List Nat
deriving DecidableEq, Repr

/-- `#define SOFTWARE_CODE "ExampleFirmwareV1"` (microvisor.c), viewed as
the byte string that `HMAC` hashes (`strlen` bytes, no terminator). -/
def SOFTWARE_CODE : List Nat := "ExampleFirmwareV1".toList.map Char.toNat

/-- `compute_valid_software_state` (microvisor.c): retrieves `Kattest` via
`get_secure_key(key, 1)` and computes `HMAC(Kattest, SOFTWARE_CODE)`. -/
def compute_valid_software_state (hmac : Hmac) (ks : Keys) : List Nat :=
  hmac ks.Kattest SOFTWARE_CODE

/-- The 4 bytes that `memcpy(hmac_input, &C_V, COUNTER_SIZE)` (and the wire
write of the counter) produce for a `uint32_t`, little-endian as on the
reference platform and as the spec's codec fixes by convention. -/
def le_bytes4 (n : Nat) : List Nat :=
  [n % 256, n / 256 % 256, n / 65536 % 256, n / 16777216 % 256]

/-- Reassemble a `uint32_t` from its 4 little-endian bytes, as `memcpy`
into a `uint32_t` does on the receiving side. -/
def le_nat4 (bs : List Nat) : Nat :=
  bs.getD 0 0 + 256 * bs.getD 1 0 + 65536 * bs.getD 2 0 + 16777216 * bs.getD 3 0

/-- `compute_prover_hmac` (prover.c): builds
`hmac_input = C_V bytes ++ valid_state ++ nonce` and returns
`HMAC(Kauth, hmac_input)`.  `valid_state` is recomputed locally via
`compute_valid_software_state`, never taken from the wire. -/
def compute_prover_hmac (hmac : Hmac) (ks : Keys) (C_V : Nat) (nonce : List Nat) : List Nat :=
  hmac ks.Kauth (le_bytes4 C_V ++ compute_valid_software_state hmac ks ++ nonce)

/-- `compute_verifier_hmac` (verifier.c): identical construction on the
Verifier side, over its own counter value `C_V`. -/
def compute_verifier_hmac (hmac : Hmac) (ks : Keys) (C_V : Nat) (nonce : List Nat) : List Nat :=
  hmac ks.Kauth (le_bytes4 C_V ++ compute_valid_software_state hmac ks ++ nonce)

/-- The proof check the Prover performs:
`memcmp(received_hmac, expected_hmac, OUTPUT_SIZE) == 0`, i.e. byte-exact
equality of the candidate with the locally recomputed expected HMAC. -/
def verify_proof (hmac : Hmac) (ks : Keys) (c : Nat) (nonce candidate : List Nat) : Bool :=
  candidate == compute_prover_hmac hmac ks c nonce

/-- An attestation Request as read by the Prover:
`{ C_V, valid_state, nonce, received_hmac }` (4 + 32 + 32 + 32 bytes). -/
structure Request where
  counter : Nat
  digest : List Nat
  nonce : List Nat
  proof : List Nat
deriving DecidableEq, Repr

/-- An attestation Report: `uint8_t report[1 + OUTPUT_SIZE]`, a 1-byte
success flag followed by 32 proof bytes. -/
structure Report where
  success : Nat
  proof : List Nat
deriving DecidableEq, Repr

/-- One iteration of the Prover's `while (1)` loop (prover.c `main`) after a
Request has been read, as a function of the current counter `C_P`:
returns the new `C_P` and the Report written to the UART, if any.
* `if (C_P >= C_V)`: reject — write `uint8_t report[33] = {0}` (all-zero,
  flag 0), `continue` without touching `C_P`;
* else recompute `expected_hmac` and compare with `memcmp`; on match set
  `C_P = C_V`, build a flag-1 report whose proof is
  `compute_prover_hmac(C_P, nonce)`, and write it;
* on mismatch only `printf` runs: no report is written and `C_P` is
  unchanged. -/
def proverStep (hmac : Hmac) (ks : Keys) (C_P : Nat) (req : Request) :
    Nat × Option Report :=
  if req.counter ≤ C_P then
    (C_P, some { success := 0, proof := List.replicate OUTPUT_SIZE 0 })
  else
    let expected := compute_prover_hmac hmac ks req.counter req.nonce
    if req.proof = expected then
      (req.counter, some { success := 1, proof := compute_prover_hmac hmac ks req.counter req.nonce })
    else
      (C_P, none)

/-- One iteration of the Verifier's `while (1)` loop (verifier.c `main`) up
to sending the Request, as a function of the current counter and the fresh
nonce: `C_V++` (a `uint32_t` increment, hence modulo `2 ^ 32`), then
`compute_verifier_hmac` over the incremented counter, then the Request
`{ C_V, valid_state, nonce, hmac }` is sent.  Returns the new `C_V` and the
Request. -/
def verifierRound (hmac : Hmac) (ks : Keys) (C_V : Nat) (nonce : List Nat) :
    Nat × Request :=
  let C_Vnew := (C_V + 1) % 2 ^ 32
  (C_Vnew,
   { counter := C_Vnew
     digest := compute_valid_software_state hmac ks
     nonce := nonce
     proof := compute_verifier_hmac hmac ks C_Vnew nonce })

/-- Wire layout of a Request, exactly as verifier.c writes it:
counter bytes, then digest, nonce, proof. -/
def encodeRequest (r : Request) : List Nat :=
  le_bytes4 r.counter ++ r.digest ++ r.nonce ++ r.proof

/-- Wire layout of a Report: success flag byte, then the 32 proof bytes. -/
def encodeReport (r : Report) : List Nat :=
  r.success :: r.proof

/-- The Prover's reads of a Request (prover.c `main`): 4 counter bytes,
32 digest bytes, 32 nonce bytes, 32 proof bytes, in that order; a shorter
buffer is not interpretable (the C loop would block until 100 bytes). -/
def decodeRequest (bs : List Nat) : Option Request :=
  if bs.length = 100 then
    some { counter := le_nat4 (bs.take 4)
           digest := (bs.drop 4).take 32
           nonce := (bs.drop 36).take 32
           proof := bs.drop 68 }
  else none

/-- The Verifier's read of a Report (verifier.c `main`): 33 bytes, flag
first, then the proof bytes. -/
def decodeReport (bs : List Nat) : Option Report :=
  if bs.length = 33 then
    some { success := bs.getD 0 0, proof := bs.drop 1 }
  else none

/-- `load_key_from_file` (microvisor.c): `fopen` the file; on success
`fread` up to `KEY_SIZE` bytes over the start of the key buffer; on failure
only `perror` runs and the buffer is left untouched.  `file` is `none` when
`fopen` fails, otherwise the file's bytes. -/
def load_key_from_file (key : List Nat) (file : Option (List Nat)) : List Nat :=
  match file with
  | some contents => contents.take KEY_SIZE ++ key.drop (min contents.length KEY_SIZE)
  | none => key

/-- `initialize_keys` (microvisor.c): load `Kauth` from `kauth.key` and
`Kattest` from `kattest.key` over the zero-initialised `.secure_data`
buffers.  The function returns unconditionally — there is no error path, so
startup always continues into the role's protocol loop. -/
def initialize_keys (kauthFile kattestFile : Option (List Nat)) : Keys :=
  { Kauth := load_key_from_file (List.replicate KEY_SIZE 0) kauthFile
    Kattest := load_key_from_file (List.replicate KEY_SIZE 0) kattestFile }

/-- Concrete executable stand-in for the opaque keyed digest, used only to
evaluate theorems at concrete inputs. -/
def hmac0 : Hmac :=
  fun key msg => (List.range 32).map (fun i => (key.sum + 2 * msg.sum + i) % 256)

/-- Concrete key state for evaluation. -/
def ks0 : Keys :=
  { Kauth := List.replicate 32 1, Kattest := List.replicate 32 2 }

/-- Concrete nonce for evaluation. -/
def nonce0 : List Nat := List.replicate 32 3

/-- Concrete well-formed Request for evaluating the codec theorems. -/
def reqW : Request :=
  { counter := 1, digest := List.replicate 32 4, nonce := nonce0
    proof := List.replicate 32 5 }

/-- Concrete Report for evaluating the codec theorems. -/
def repW : Report :=
  { success := 1, proof := List.replicate 32 5 }

/-- C1: a Request whose counter is at most the Prover's current `C_P` is
rejected: the Report written is flag 0 with all 33 bytes zero, and `C_P`
is unchanged. -/
theorem C1_stale_request_rejected (hmac : Hmac) (ks : Keys) (C_P : Nat)
    (req : Request) (h : req.counter ≤ C_P) :
    proverStep hmac ks C_P req
      = (C_P, some { success := 0, proof := List.replicate OUTPUT_SIZE 0 }) ∧
    encodeReport { success := 0, proof := List.replicate OUTPUT_SIZE 0 }
      = List.replicate 33 0 := by
  constructor
  · simp [proverStep, h]
  · decide

theorem C1_stale_request_rejected_witness :
    proverStep hmac0 ks0 5 { counter := 3, digest := [], nonce := nonce0, proof := [] }
      = (5, some { success := 0, proof := List.replicate OUTPUT_SIZE 0 }) ∧
    encodeReport { success := 0, proof := List.replicate OUTPUT_SIZE 0 }
      = List.replicate 33 0 :=
  C1_stale_request_rejected hmac0 ks0 5
    { counter := 3, digest := [], nonce := nonce0, proof := [] } (by decide)

/-- C2: the Prover's counter is monotone: a round whose Report has flag 1
sets `C_P` to the accepted Request's counter, strictly above the old value;
any other outcome (stale rejection's flag-0 report, or proof mismatch with
no report) leaves `C_P` unchanged. -/
theorem C2_counter_monotone (hmac : Hmac) (ks : Keys) (C_P : Nat) (req : Request) :
    (∀ r : Report, (proverStep hmac ks C_P req).2 = some r → r.success = 1 →
       C_P < (proverStep hmac ks C_P req).1 ∧
       (proverStep hmac ks C_P req).1 = req.counter) ∧
    (∀ r : Report, (proverStep hmac ks C_P req).2 = some r → r.success = 0 →
       (proverStep hmac ks C_P req).1 = C_P) ∧
    ((proverStep hmac ks C_P req).2 = none → (proverStep hmac ks C_P req).1 = C_P) := by
  unfold proverStep
  by_cases hle : req.counter ≤ C_P
  · simp [hle]
  · by_cases hpf : req.proof = compute_prover_hmac hmac ks req.counter req.nonce
    · refine ⟨?_, ?_, ?_⟩
      · simp only [hle, hpf]
        simp
        omega
      · simp [hle, hpf]
      · simp [hle, hpf]
    · simp [hle, hpf]

theorem C2_counter_monotone_witness :
    0 < (proverStep hmac0 ks0 0
      { counter := 1, digest := [], nonce := nonce0,
        proof := compute_prover_hmac hmac0 ks0 1 nonce0 }).1 ∧
    (proverStep hmac0 ks0 0
      { counter := 1, digest := [], nonce := nonce0,
        proof := compute_prover_hmac hmac0 ks0 1 nonce0 }).1 = 1 :=
  (C2_counter_monotone hmac0 ks0 0
      { counter := 1, digest := [], nonce := nonce0,
        proof := compute_prover_hmac hmac0 ks0 1 nonce0 }).1
    { success := 1, proof := compute_prover_hmac hmac0 ks0 1 nonce0 }
    (by decide) (by decide)

/-- C3 (code evaluation): on a fresh Request whose proof mismatches, the
code leaves `C_P` unchanged but writes NO Report at all — the `else` branch
of the `memcmp` check only prints; the claim (and the spec) say a flag-0
Report is sent. -/
theorem C3_mismatch_sends_no_report :
    proverStep hmac0 ks0 0
      { counter := 1, digest := [], nonce := nonce0, proof := List.replicate 32 7 }
      = (0, none) := by decide

/-- C4: a proof computed by the Verifier's proof computation over a given
counter and nonce always verifies on the Prover's side: both sides feed the
identical `counter bytes ++ locally-computed digest ++ nonce` into the HMAC
under the same `Kauth`, so `verify_proof` returns `true`. -/
theorem C4_compute_then_verify (hmac : Hmac) (ks : Keys) (c : Nat) (nonce : List Nat) :
    compute_verifier_hmac hmac ks c nonce = compute_prover_hmac hmac ks c nonce ∧
    verify_proof hmac ks c nonce (compute_verifier_hmac hmac ks c nonce) = true := by
  refine ⟨rfl, ?_⟩
  simp [verify_proof, compute_verifier_hmac, compute_prover_hmac]

/-- C5: noninterference in the carried digest: two Requests equal except in
the `digest` field produce the same new counter and the same Report — the
Prover never reads the wire digest, it recomputes its own. -/
theorem C5_digest_noninterference (hmac : Hmac) (ks : Keys) (C_P : Nat)
    (req1 req2 : Request) (hc : req1.counter = req2.counter)
    (hn : req1.nonce = req2.nonce) (hp : req1.proof = req2.proof) :
    proverStep hmac ks C_P req1 = proverStep hmac ks C_P req2 := by
  unfold proverStep
  rw [hc, hn, hp]

theorem C5_digest_noninterference_witness :
    proverStep hmac0 ks0 0
      { counter := 1, digest := List.replicate 32 9, nonce := nonce0,
        proof := compute_prover_hmac hmac0 ks0 1 nonce0 }
    = proverStep hmac0 ks0 0
      { counter := 1, digest := List.replicate 32 11, nonce := nonce0,
        proof := compute_prover_hmac hmac0 ks0 1 nonce0 } :=
  C5_digest_noninterference hmac0 ks0 0
    { counter := 1, digest := List.replicate 32 9, nonce := nonce0,
      proof := compute_prover_hmac hmac0 ks0 1 nonce0 }
    { counter := 1, digest := List.replicate 32 11, nonce := nonce0,
      proof := compute_prover_hmac hmac0 ks0 1 nonce0 }
    rfl rfl rfl

/-- C6 counterexample: the claim says `C_V` never wraps and that reaching
`2 ^ 32 - 1` is fatal; but the code's `C_V++` on a `uint32_t` silently
wraps: a round from `C_V = 2 ^ 32 - 1` runs normally and ends with
`C_V = 0`, strictly below the previous value. -/
theorem C6_wrap_counterexample :
    (verifierRound hmac0 ks0 (2 ^ 32 - 1) nonce0).1 = 0 ∧
    (verifierRound hmac0 ks0 (2 ^ 32 - 1) nonce0).1 < 2 ^ 32 - 1 := by
  refine ⟨?_, ?_⟩
  · norm_num [verifierRound]
  · norm_num [verifierRound]

/-- C6 (amended): each Verifier round increments `C_V` by 1 modulo
`2 ^ 32` before computing the proof and building the Request (which carry
the incremented value); below `2 ^ 32 - 1` the counter strictly increases,
and at `2 ^ 32 - 1` it silently wraps to 0 — no fatal exhaustion check
exists. -/
theorem C6_increment_mod (hmac : Hmac) (ks : Keys) (C_V : Nat) (nonce : List Nat) :
    (verifierRound hmac ks C_V nonce).1 = (C_V + 1) % 2 ^ 32 ∧
    (verifierRound hmac ks C_V nonce).2.counter = (C_V + 1) % 2 ^ 32 ∧
    (verifierRound hmac ks C_V nonce).2.proof
      = compute_verifier_hmac hmac ks ((C_V + 1) % 2 ^ 32) nonce ∧
    (C_V < 2 ^ 32 - 1 → C_V < (verifierRound hmac ks C_V nonce).1) ∧
    (verifierRound hmac ks (2 ^ 32 - 1) nonce).1 = 0 := by
  refine ⟨rfl, rfl, rfl, ?_, ?_⟩
  · intro h
    have : (C_V + 1) % 2 ^ 32 = C_V + 1 := Nat.mod_eq_of_lt (by omega)
    simp only [verifierRound, this]
    omega
  · norm_num [verifierRound]

theorem C6_increment_mod_witness :
    0 < (verifierRound hmac0 ks0 0 nonce0).1 :=
  (C6_increment_mod hmac0 ks0 0 nonce0).2.2.2.1 (by norm_num)

/-- C7 counterexample: when both `fopen` calls fail, `initialize_keys`
returns normally with both keys still all-zero, and the Prover proceeds to
run the protocol with those never-loaded keys (here: a full successful
round), contradicting the claim that startup aborts. -/
theorem C7_no_abort_counterexample :
    initialize_keys none none
      = { Kauth := List.replicate KEY_SIZE 0, Kattest := List.replicate KEY_SIZE 0 } ∧
    (proverStep hmac0 (initialize_keys none none) 0
      { counter := 1, digest := [], nonce := nonce0,
        proof := compute_prover_hmac hmac0 (initialize_keys none none) 1 nonce0 }).2
      = some { success := 1,
               proof := compute_prover_hmac hmac0 (initialize_keys none none) 1 nonce0 } := by
  decide

/-- C7 (amended): when loading a key file fails, `load_key_from_file` only
prints an error and leaves the buffer untouched, so `initialize_keys`
returns with that key still at its all-zero initial value and startup
continues into the protocol loop. -/
theorem C7_load_failure_keeps_zero_key (kf1 kf2 : Option (List Nat)) :
    (kf1 = none → (initialize_keys kf1 kf2).Kauth = List.replicate KEY_SIZE 0) ∧
    (kf2 = none → (initialize_keys kf1 kf2).Kattest = List.replicate KEY_SIZE 0) :=
  ⟨fun h => by subst h; rfl, fun h => by subst h; rfl⟩

theorem C7_load_failure_keeps_zero_key_witness :
    (initialize_keys none none).Kauth = List.replicate KEY_SIZE 0 :=
  (C7_load_failure_keeps_zero_key none none).1 rfl

/-- C9: a Request goes on the wire as 4 little-endian counter bytes, then
the digest, nonce and proof, 100 bytes in all, parsed back in that exact
order; a Report is the flag byte then the 32 proof bytes, 33 in all. -/
theorem C9_wire_layout (req : Request) (hd : req.digest.length = 32)
    (hn : req.nonce.length = 32) (hp : req.proof.length = 32)
    (hc : req.counter < 2 ^ 32) (r : Report) (hr : r.proof.length = 32) :
    (encodeRequest req).length = 100 ∧
    decodeRequest (encodeRequest req) = some req ∧
    (encodeReport r).length = 33 ∧
    decodeReport (encodeReport r) = some r := by
  have h4 : (le_bytes4 req.counter).length = 4 := by simp [le_bytes4]
  have hassoc : encodeRequest req
      = le_bytes4 req.counter ++ (req.digest ++ (req.nonce ++ req.proof)) := by
    simp [encodeRequest, List.append_assoc]
  have hlen : (encodeRequest req).length = 100 := by
    simp [encodeRequest, le_bytes4, hd, hn, hp]
  have htake4 : (encodeRequest req).take 4 = le_bytes4 req.counter := by
    rw [hassoc]; exact List.take_left' h4
  have hdrop4 : (encodeRequest req).drop 4 = req.digest ++ (req.nonce ++ req.proof) := by
    rw [hassoc]; exact List.drop_left' h4
  have hdigest : ((encodeRequest req).drop 4).take 32 = req.digest := by
    rw [hdrop4]; exact List.take_left' hd
  have hdrop36 : (encodeRequest req).drop 36 = req.nonce ++ req.proof := by
    have h36 : (encodeRequest req).drop 36 = ((encodeRequest req).drop 4).drop 32 := by
      rw [List.drop_drop]
    rw [h36, hdrop4]
    exact List.drop_left' hd
  have hnonce : ((encodeRequest req).drop 36).take 32 = req.nonce := by
    rw [hdrop36]; exact List.take_left' hn
  have hproof : (encodeRequest req).drop 68 = req.proof := by
    have h68 : (encodeRequest req).drop 68 = ((encodeRequest req).drop 36).drop 32 := by
      rw [List.drop_drop]
    rw [h68, hdrop36]
    exact List.drop_left' hn
  have hcounter : le_nat4 ((encodeRequest req).take 4) = req.counter := by
    rw [htake4]
    simp only [le_nat4, le_bytes4, List.getD_cons_zero, List.getD_cons_succ]
    omega
  refine ⟨hlen, ?_, ?_, ?_⟩
  · unfold decodeRequest
    rw [if_pos hlen, hcounter, hdigest, hnonce, hproof]
  · simp [encodeReport, hr]
  · unfold decodeReport
    rw [if_pos (by simp [encodeReport, hr])]
    simp [encodeReport]

theorem C9_wire_layout_witness :
    (encodeRequest reqW).length = 100 ∧
    decodeRequest (encodeRequest reqW) = some reqW ∧
    (encodeReport repW).length = 33 ∧
    decodeReport (encodeReport repW) = some repW :=
  C9_wire_layout reqW (by decide) (by decide) (by decide) (by decide)
    repW (by decide)

/-- C10: on an accepted Request the Report's proof is byte-for-byte the
Request's own proof: acceptance means the received proof equals the locally
recomputed HMAC, `C_P` becomes the received counter, and the response proof
is the same function of the same counter, digest and nonce. -/
theorem C10_report_proof_equals_request_proof (hmac : Hmac) (ks : Keys)
    (C_P : Nat) (req : Request) (hfresh : C_P < req.counter)
    (hmatch : req.proof = compute_prover_hmac hmac ks req.counter req.nonce) :
    proverStep hmac ks C_P req
      = (req.counter, some { success := 1, proof := req.proof }) := by
  simp [proverStep, Nat.not_le.mpr hfresh, hmatch]

theorem C10_report_proof_equals_request_proof_witness :
    proverStep hmac0 ks0 0
      { counter := 1, digest := [], nonce := nonce0,
        proof := compute_prover_hmac hmac0 ks0 1 nonce0 }
      = (1, some { success := 1, proof := compute_prover_hmac hmac0 ks0 1 nonce0 }) :=
  C10_report_proof_equals_request_proof hmac0 ks0 0
    { counter := 1, digest := [], nonce := nonce0,
      proof := compute_prover_hmac hmac0 ks0 1 nonce0 }
    (by decide) rfl
